import Mathlib

/-!
Verification of the p2 excerpt: the per-node health monitor
(src/pkg/watch/health.go) and the fake status store
(src/pkg/store/consul/statusstore/statusstoretest/fake_status_store.go).

Machine integers are modelled as Int (int64 values, wrapped explicitly with
int64wrap wherever Go arithmetic can overflow) and Nat (uint64 counters far
from their wrap point).  Durations are int64 nanosecond counts, matching
Go time.Duration.  Channels are identified by Nat tokens; a send of value v
on channel c is recorded as the pair (c, v).  Strings are Lean String.
-/

/-! ## Go int64 arithmetic -/

/-- Wrap an unbounded integer into the int64 range, as Go two's-complement
arithmetic does on overflow. -/
def int64wrap (n : Int) : Int :=
  let m := n % 18446744073709551616
  if m < 9223372036854775808 then m else m - 18446744073709551616

/-! ## health.go constants (durations in nanoseconds, as Go time.Duration) -/

/-- Go time.Second expressed in nanoseconds. -/
def Second : Int := 1000000000

/-- Healthcheck TTL: 60 * time.Second (health.go line 26). -/
def TTL : Int := 60 * Second

/-! ## Data model from health.go and the packages it consumes -/

/-- Go health.HealthState is a string type. -/
abbrev HealthState := String

/-- Go health.Passing. -/
def Passing : HealthState := "passing"

/-- Go health.Critical. -/
def Critical : HealthState := "critical"

/-- Relevant fields of pods.Manifest consumed by health.go: stable Id,
StatusPort (0 = no status endpoint) and StatusHTTP. -/
structure Manifest where
  Id : String
  StatusPort : Nat
  StatusHTTP : Bool
deriving DecidableEq, Repr

/-- kp.ManifestResult as consumed by updatePods: the manifest listed from
the reality store. -/
structure ManifestResult where
  Manifest : Manifest
deriving DecidableEq, Repr

/-- PodWatch (health.go lines 38-46): the pod manifest plus the shutdown
channel of its monitor goroutine.  The channel is identified by a Nat
token; the logger field carries no program state and is omitted. -/
structure PodWatch where
  manifest : Manifest
  shutdownCh : Nat
deriving DecidableEq, Repr

/-- StatusCheck (health.go lines 48-61).  The http.Client field carries no
state relevant to the verified logic and is omitted; lastCheck is an int64
nanosecond timestamp (Go time.Time), lastStatus a health.HealthState. -/
structure StatusCheck where
  ID : String
  Node : String
  URI : String
  HTTP : Bool
  lastCheck : Int
  lastStatus : HealthState
deriving DecidableEq, Repr

/-- Go health.Result: the fields read and written by health.go. -/
structure HealthResult where
  ID : String
  Node : String
  Service : String
  Status : HealthState
  Output : String
deriving DecidableEq, Repr

/-- Go health.Result zero value, as built by resultFromCheck line 150. -/
def emptyResult : HealthResult :=
  { ID := "", Node := "", Service := "", Status := "", Output := "" }

/-- kp.WatchResult, the record handed to store.PutHealth (health.go
lines 184-192). -/
structure WatchResult where
  Service : String
  Node : String
  Id : String
  Status : String
  Output : String
deriving DecidableEq, Repr

deriving instance DecidableEq for Except

/-- An http.Response as far as health.go inspects it: the status code and
the outcome of reading the body (ok contents, or a read error). -/
structure HttpResponse where
  StatusCode : Int
  Body : Except String String
deriving DecidableEq, Repr

/-- The outcome of the external store.PutHealth call made by writeToConsul:
the returned put time and error. -/
structure PutOutcome where
  timeOfPut : Int
  err : Option String
deriving DecidableEq, Repr

/-! ## resultFromCheck and getBody (health.go lines 149-175) -/

/-- getBody (health.go lines 168-175): returns the body string, or the
empty string together with the read error. -/
def getBody (resp : HttpResponse) : String × Option String :=
  match resp.Body with
  | Except.error e => ("", some e)
  | Except.ok body => (body, none)

/-- resultFromCheck (health.go lines 149-166).  The transport error (if
any) and response come from StatusCheck.Check; the second component is the
error returned alongside the result (nil in the transport-error branch,
the getBody error otherwise). -/
def resultFromCheck (resp : Option HttpResponse) (err : Option String) :
    HealthResult × Option String :=
  match err, resp with
  | some e, _ => ({ emptyResult with Status := Critical, Output := e }, none)
  | none, none => ({ emptyResult with Status := Critical }, none)
  | none, some r =>
    let bo := getBody r
    ({ emptyResult with
        Output := bo.1,
        Status := if 200 ≤ r.StatusCode ∧ r.StatusCode < 300 then Passing else Critical },
      bo.2)

/-! ## Publishing decision and the per-pod check (health.go lines 116-133,
179-192, 256-268) -/

/-- StatusCheck.updateNeeded (health.go lines 256-268).  The Go expression
is time.Since(sc.lastCheck) > time.Duration(ttl/4)*time.Second, where ttl
and time.Second are int64 nanosecond counts and the product wraps in
int64; nowNs - sc.lastCheck models time.Since(sc.lastCheck). -/
def StatusCheck.updateNeeded (sc : StatusCheck) (res : HealthResult)
    (ttl : Int) (nowNs : Int) : Bool :=
  if sc.lastStatus ≠ res.Status then true
  else if nowNs - sc.lastCheck > int64wrap (ttl / 4 * Second) then true
  else false

/-- resToKPRes (health.go lines 184-192); string(res.Status) is the
identity under the string model of HealthState. -/
def resToKPRes (res : HealthResult) : WatchResult :=
  { Service := res.Service, Node := res.Node, Id := res.ID,
    Status := res.Status, Output := res.Output }

/-- checkHealth (health.go lines 116-133).  The probe outcome (resp, rerr)
stands for sc.Check() and put for the external store.PutHealth response
consumed by writeToConsul (lines 179-182).  Returns the callee's local
StatusCheck value after the call (Go passes sc by value) and the
WatchResult handed to PutHealth, if any.  On a getBody error checkHealth
returns early (line 119-121); on publish it assigns sc.lastCheck from
writeToConsul and sc.lastStatus from the result, logging but not handling
a put error (lines 127-131). -/
def checkHealth (sc : StatusCheck) (resp : Option HttpResponse)
    (rerr : Option String) (put : PutOutcome) (nowNs : Int) :
    StatusCheck × Option WatchResult :=
  let hr := resultFromCheck resp rerr
  match hr.2 with
  | some _ => (sc, none)
  | none =>
    let res := { hr.1 with ID := sc.ID, Node := sc.Node, Service := sc.ID }
    if sc.updateNeeded res TTL nowNs then
      ({ sc with lastCheck := put.timeOfPut, lastStatus := res.Status },
        some (resToKPRes res))
    else (sc, none)

/-! ## The monitor loop (health.go lines 105-114) -/

/-- One event consumed by the MonitorHealth select loop: a timer tick
(with the probe and put outcomes observed during the resulting
checkHealth call) or a receive on the shutdown channel. -/
inductive MonitorEvent where
  | tick (resp : Option HttpResponse) (rerr : Option String)
      (put : PutOutcome) (nowNs : Int)
  | shutdown
deriving DecidableEq, Repr

/-- MonitorHealth (health.go lines 105-114) run on a finite event trace.
Returns true iff the loop returned (terminated).  On a tick it calls
checkHealth with its statusChecker parameter; Go passes the struct by
value and the parameter is never reassigned, so every call receives the
same value and the state checkHealth computes is discarded. -/
def MonitorHealth (statusChecker : StatusCheck) (events : List MonitorEvent) : Bool :=
  match events with
  | [] => false
  | MonitorEvent.shutdown :: _ => true
  | MonitorEvent.tick resp rerr put nowNs :: rest =>
    let _ := checkHealth statusChecker resp rerr put nowNs
    MonitorHealth statusChecker rest

/-- The sequence of StatusCheck values MonitorHealth passes to checkHealth,
one per tick consumed before any shutdown: always its own (never
reassigned) statusChecker parameter, since Go passes structs by value. -/
def monitorCalls (statusChecker : StatusCheck) (events : List MonitorEvent) :
    List StatusCheck :=
  match events with
  | [] => []
  | MonitorEvent.shutdown :: _ => []
  | MonitorEvent.tick _ _ _ _ :: rest => statusChecker :: monitorCalls statusChecker rest

/-! ## The supervisor reconciliation (health.go lines 135-147, 196-254) -/

/-- Membership test of loop 1 of updatePods (lines 204-211): is the pod id
present in the listed reality set. -/
def idInReality (reality : List ManifestResult) (i : String) : Bool :=
  reality.any fun man => man.Manifest.Id == i

/-- Membership test of loop 2 of updatePods (lines 224-230): is the
manifest id already among the watched pods. -/
def idInPods (pods : List PodWatch) (i : String) : Bool :=
  pods.any fun pod => pod.manifest.Id == i

/-- Number of watched pods carrying a given manifest id. -/
def countId (pods : List PodWatch) (i : String) : Nat :=
  pods.countP fun p => p.manifest.Id == i

/-- The StatusCheck built for a fresh PodWatch (health.go lines 242-248);
lastCheck and lastStatus start at their Go zero values. -/
def newStatusCheck (node : String) (man : Manifest) : StatusCheck :=
  { ID := man.Id, Node := node, URI := node ++ ":" ++ toString man.StatusPort,
    HTTP := man.StatusHTTP, lastCheck := 0, lastStatus := "" }

/-- Loop 2 of updatePods (health.go lines 223-252): for each listed
manifest missing from the watched set and having StatusPort ≠ 0, append a
new PodWatch with a fresh buffered shutdown channel (fresh Nat tokens
name the channels created by make(chan bool, 1)).  The spawned
MonitorHealth goroutine is modelled separately by MonitorHealth. -/
def addMissing (pods : List PodWatch) (reality : List ManifestResult)
    (fresh : Nat) : List PodWatch :=
  match reality with
  | [] => pods
  | man :: rest =>
    if (!(idInPods pods man.Manifest.Id)) && (man.Manifest.StatusPort != 0) then
      addMissing (pods ++ [{ manifest := man.Manifest, shutdownCh := fresh }])
        rest (fresh + 1)
    else addMissing pods rest fresh

/-- updatePods (health.go lines 196-254).  Returns the new watched set and
the sends performed on shutdown channels: loop 1 keeps each current pod
whose id is listed and sends true on the shutdown channel of each pod
whose id is not; loop 2 is addMissing. -/
def updatePods (current : List PodWatch) (reality : List ManifestResult)
    (fresh : Nat) : List PodWatch × List (Nat × Bool) :=
  let newCurrent := current.filter fun pod => idInReality reality pod.manifest.Id
  let signaled := (current.filter fun pod => !(idInReality reality pod.manifest.Id)).map
    fun pod => (pod.shutdownCh, true)
  (addMissing newCurrent reality fresh, signaled)

/-- updateHealthMonitors (health.go lines 135-147).  The pair (reality,
listErr) is the response of the external store.ListPods call; on error Go
returns the nil slice alongside the error.  The code only logs listErr
(line 143) and unconditionally proceeds to updatePods with the returned
reality value. -/
def updateHealthMonitors (watchedPods : List PodWatch)
    (reality : List ManifestResult) (listErr : Option String) (fresh : Nat) :
    List PodWatch × List (Nat × Bool) :=
  updatePods watchedPods reality fresh

/-! ## The fake status store (fake_status_store.go) -/

/-- Go statusstore.Status is an uninterpreted byte payload, modelled as a string;
its zero value is empty. -/
abbrev Status := String

/-- StatusIdentifier (fake_status_store.go lines 31-35): the index into
the status map. -/
structure StatusIdentifier where
  resourceType : String
  resourceID : String
  «namespace» : String
deriving DecidableEq, Repr

/-- StatusIdentifier.String (fake_status_store.go lines 37-39). -/
def StatusIdentifier.string (s : StatusIdentifier) : String :=
  "status/" ++ s.resourceType ++ "/" ++ s.resourceID ++ "/" ++ s.«namespace»

/-- The consul api.QueryMeta field consumed by callers. -/
structure QueryMeta where
  LastIndex : Nat
deriving DecidableEq, Repr

/-- Errors surfaced by the fake store: the typed
statusstore.NoStatusError carrying its key string, and the plain message
errors built with errors.New or util.Errorf. -/
inductive StoreError where
  | noStatus (key : String)
  | message (msg : String)
deriving DecidableEq, Repr

/-- FakeStatusStore (fake_status_store.go lines 18-26): the status map
(as an association list) and the imitated consul ModifyIndex.  The mutex
only guards concurrent access and carries no state. -/
structure FakeStatusStore where
  Statuses : List (StatusIdentifier × Status)
  LastIndex : Nat
deriving DecidableEq, Repr

/-- NewFake (fake_status_store.go lines 41-46): empty map, LastIndex
starting at 1234. -/
def NewFake : FakeStatusStore := { Statuses := [], LastIndex := 1234 }

/-- Lookup in the status map, modelling Go map indexing with the ok flag
encoded as Option. -/
def lookupStatus : List (StatusIdentifier × Status) → StatusIdentifier → Option Status
  | [], _ => none
  | (k, v) :: rest, key => if k = key then some v else lookupStatus rest key

/-- Insertion into the status map, modelling Go map assignment. -/
def insertStatus : List (StatusIdentifier × Status) → StatusIdentifier → Status →
    List (StatusIdentifier × Status)
  | [], key, v => [(key, v)]
  | (k0, v0) :: rest, key, v =>
    if k0 = key then (key, v) :: rest else (k0, v0) :: insertStatus rest key v

/-- Deletion from the status map, modelling Go delete. -/
def deleteStatus : List (StatusIdentifier × Status) → StatusIdentifier →
    List (StatusIdentifier × Status)
  | [], _ => []
  | (k0, v0) :: rest, key =>
    if k0 = key then rest else (k0, v0) :: deleteStatus rest key

/-- SetStatus (fake_status_store.go lines 48-60): store the status under
its identifier and advance LastIndex. -/
def FakeStatusStore.SetStatus (s : FakeStatusStore) (t id ns : String)
    (status : Status) : FakeStatusStore × Option StoreError :=
  let identifier : StatusIdentifier := { resourceType := t, resourceID := id, «namespace» := ns }
  ({ Statuses := insertStatus s.Statuses identifier status, LastIndex := s.LastIndex + 1 }, none)

/-- CASStatus (fake_status_store.go lines 62-71): unconditionally returns
an error; the store is untouched. -/
def FakeStatusStore.CASStatus (s : FakeStatusStore) (t id ns : String)
    (status : Status) (modifyIndex : Nat) : FakeStatusStore × Option StoreError :=
  (s, some (StoreError.message "CASStatus uses transactions which requires a real consul instance"))

/-- SetTxn (fake_status_store.go lines 73-81): unconditionally returns an
error; the store is untouched. -/
def FakeStatusStore.SetTxn (s : FakeStatusStore) (t id ns : String)
    (status : Status) : FakeStatusStore × Option StoreError :=
  (s, some (StoreError.message "SetTxn uses transactions which requires a real consul instance"))

/-- GetStatus (fake_status_store.go lines 83-101): an absent key returns
the zero Status, the store's current LastIndex and a NoStatusError
carrying the key string; a present key returns its status, the current
LastIndex and no error. -/
def FakeStatusStore.GetStatus (s : FakeStatusStore) (t id ns : String) :
    Status × QueryMeta × Option StoreError :=
  let identifier : StatusIdentifier := { resourceType := t, resourceID := id, «namespace» := ns }
  match lookupStatus s.Statuses identifier with
  | none => ("", { LastIndex := s.LastIndex }, some (StoreError.noStatus identifier.string))
  | some status => (status, { LastIndex := s.LastIndex }, none)

/-- WatchStatus (fake_status_store.go lines 103-121) observed against a
fixed store state: one pass of the spin loop returns GetStatus as soon as
waitIndex ≤ s.LastIndex, and keeps sleeping (none) otherwise. -/
def FakeStatusStore.WatchStatus (s : FakeStatusStore) (t id ns : String)
    (waitIndex : Nat) : Option (Status × QueryMeta × Option StoreError) :=
  if waitIndex ≤ s.LastIndex then some (s.GetStatus t id ns) else none

/-- DeleteStatus (fake_status_store.go lines 123-135): remove the key and
advance LastIndex. -/
def FakeStatusStore.DeleteStatus (s : FakeStatusStore) (t id ns : String) :
    FakeStatusStore × Option StoreError :=
  let identifier : StatusIdentifier := { resourceType := t, resourceID := id, «namespace» := ns }
  ({ Statuses := deleteStatus s.Statuses identifier, LastIndex := s.LastIndex + 1 }, none)

/-- DeleteStatusTxn (fake_status_store.go lines 137-144): unconditionally
returns an error; the store is untouched. -/
def FakeStatusStore.DeleteStatusTxn (s : FakeStatusStore) (t id ns : String) :
    FakeStatusStore × Option StoreError :=
  (s, some (StoreError.message "DeleteStatusTxn() is not implemented on FakeStatusStore. Use a real consul-backed status store if you need this"))

/-! ## Concrete inputs used by the evaluation theorems -/

/-- A freshly created StatusCheck for service web on node1, as built by
updatePods: lastCheck and lastStatus at their Go zero values. -/
def scInit : StatusCheck :=
  { ID := "web", Node := "node1", URI := "node1:8080", HTTP := false,
    lastCheck := 0, lastStatus := "" }

/-- A StatusCheck whose previous check already recorded Passing at time 0. -/
def sc3 : StatusCheck := { scInit with lastStatus := Passing }

/-- A probe result equal in status to sc3's recorded lastStatus. -/
def res3 : HealthResult :=
  { ID := "web", Node := "node1", Service := "web", Status := Passing, Output := "ok" }

/-- A 200 response whose body reads ok. -/
def respOk : HttpResponse := { StatusCode := 200, Body := Except.ok "ok" }

/-- A successful KV put at t = 5s. -/
def putOk : PutOutcome := { timeOfPut := 5000000000, err := none }

/-- A monitor tick at t = 5s observing respOk and putOk. -/
def tickOk : MonitorEvent := MonitorEvent.tick (some respOk) none putOk 5000000000

/-- The record checkHealth hands to the KV put for a refused connection. -/
def wWeb : WatchResult :=
  { Service := "web", Node := "node1", Id := "web", Status := Critical,
    Output := "connection refused" }

/-! ## Helper lemmas about the reconciliation -/

theorem idInPods_iff_countId_pos (pods : List PodWatch) (i : String) :
    idInPods pods i = true ↔ 0 < countId pods i := by
  simp [idInPods, countId, List.any_eq_true, List.countP_pos_iff]

theorem countId_eq_zero_of_not_idInPods (pods : List PodWatch) (i : String)
    (h : idInPods pods i = false) : countId pods i = 0 := by
  by_contra hne
  have hpos : 0 < countId pods i := Nat.pos_of_ne_zero hne
  rw [← idInPods_iff_countId_pos] at hpos
  simp [h] at hpos

theorem countId_append (l1 l2 : List PodWatch) (i : String) :
    countId (l1 ++ l2) i = countId l1 i + countId l2 i := by
  simp [countId, List.countP_append]

theorem countId_singleton (p : PodWatch) (i : String) :
    countId [p] i = if p.manifest.Id == i then 1 else 0 := by
  simp only [countId, List.countP_cons, List.countP_nil, Nat.zero_add]

theorem idInPods_append (l1 l2 : List PodWatch) (i : String) :
    idInPods (l1 ++ l2) i = (idInPods l1 i || idInPods l2 i) := by
  simp [idInPods, List.any_append]

theorem idInPods_singleton (p : PodWatch) (i : String) :
    idInPods [p] i = (p.manifest.Id == i) := by
  simp [idInPods]

theorem countId_filter_le (l : List PodWatch) (q : PodWatch → Bool) (i : String) :
    countId (l.filter q) i ≤ countId l i := by
  simp only [countId]
  exact (List.filter_sublist l).countP_le _

/-- How loop 2 of updatePods changes the number of watches per id: an id
already watched is never duplicated, and an id not yet watched ends with
exactly one watch iff some listed manifest carries it with a nonzero
status port. -/
theorem addMissing_countId (reality : List ManifestResult) (pods : List PodWatch)
    (fresh : Nat) (i : String) :
    countId (addMissing pods reality fresh) i =
      if idInPods pods i then countId pods i
      else if reality.any (fun man => man.Manifest.Id == i && man.Manifest.StatusPort != 0)
        then 1 else 0 := by
  induction reality generalizing pods fresh with
  | nil =>
    simp only [addMissing, List.any_nil]
    cases h : idInPods pods i with
    | true => simp
    | false => simp [countId_eq_zero_of_not_idInPods pods i h]
  | cons man rest ih =>
    simp only [addMissing]
    split
    next hcond =>
      have hnotin : idInPods pods man.Manifest.Id = false := by
        have := (Bool.and_eq_true _ _).mp hcond
        simpa using this.1
      have hport : (man.Manifest.StatusPort != 0) = true := ((Bool.and_eq_true _ _).mp hcond).2
      rw [ih]
      by_cases hid : man.Manifest.Id = i
      · subst hid
        have hz : countId pods man.Manifest.Id = 0 :=
          countId_eq_zero_of_not_idInPods pods _ hnotin
        rw [idInPods_append, idInPods_singleton]
        simp [hnotin, countId_append, countId_singleton, hz, hport]
      · have hbeq : (man.Manifest.Id == i) = false := by simpa using hid
        rw [idInPods_append, idInPods_singleton, hbeq, Bool.or_false,
          countId_append, countId_singleton, hbeq]
        simp [List.any_cons, hbeq]
    next hcond =>
      have hcond' : ((!(idInPods pods man.Manifest.Id)) && (man.Manifest.StatusPort != 0)) = false :=
        Bool.not_eq_true _ ▸ eq_false_of_ne_true hcond
      rw [ih]
      cases hp : idInPods pods i with
      | true => simp
      | false =>
        have hman : (man.Manifest.Id == i && man.Manifest.StatusPort != 0) = false := by
          by_cases hid : man.Manifest.Id = i
          · subst hid
            rcases Bool.and_eq_false_iff.mp hcond' with h1 | h2
            · have h1' : idInPods pods man.Manifest.Id = true := by simpa using h1
              exact absurd h1' (by simp [hp])
            · simp [h2]
          · simp [hid]
        simp [List.any_cons, hman]

/-- Every pod produced by loop 2 of updatePods was already watched or
carries a manifest listed in the reality set. -/
theorem addMissing_mem (reality : List ManifestResult) (pods : List PodWatch)
    (fresh : Nat) (pod : PodWatch) (h : pod ∈ addMissing pods reality fresh) :
    pod ∈ pods ∨ ∃ man, man ∈ reality ∧ pod.manifest = man.Manifest := by
  induction reality generalizing pods fresh with
  | nil => exact Or.inl (by simpa [addMissing] using h)
  | cons man rest ih =>
    simp only [addMissing] at h
    by_cases hcond : ((!(idInPods pods man.Manifest.Id)) && (man.Manifest.StatusPort != 0)) = true
    · rw [if_pos hcond] at h
      rcases ih _ _ h with hin | ⟨m, hm, he⟩
      · rcases List.mem_append.mp hin with h1 | h2
        · exact Or.inl h1
        · have : pod = { manifest := man.Manifest, shutdownCh := fresh } := by simpa using h2
          exact Or.inr ⟨man, List.mem_cons_self _ _, by rw [this]⟩
      · exact Or.inr ⟨m, List.mem_cons_of_mem _ hm, he⟩
    · rw [if_neg hcond] at h
      rcases ih _ _ h with hin | ⟨m, hm, he⟩
      · exact Or.inl hin
      · exact Or.inr ⟨m, List.mem_cons_of_mem _ hm, he⟩

/-! ## Claim theorems -/

/-- C1: the claim states that a tick whose reality listing fails leaves
the supervised set unchanged, signals no shutdown channel and drops no
monitor.  updateHealthMonitors only logs the listing error and still
reconciles against the returned nil listing: at the failing input (one
supervised pod, a listing error alongside the nil reality slice) the tick
sends true on the pod's shutdown channel and returns the empty supervised
set. -/
theorem updateHealthMonitors_error_tears_down :
    updateHealthMonitors
      [{ manifest := { Id := "web", StatusPort := 8080, StatusHTTP := false }, shutdownCh := 0 }]
      [] (some "kv list failed") 1 = ([], [(0, true)]) := by decide

/-- C2 counterexample: the claim quantifies over every current supervised
set; starting from a current set holding two PodWatches with the same
manifest id and a reality set listing that id, updatePods keeps both, so
the returned set holds two PodWatches with one manifest id, against the
claimed no-duplicates conclusion. -/
theorem updatePods_duplicate_ids_survive :
    countId (updatePods
      [{ manifest := { Id := "web", StatusPort := 8080, StatusHTTP := false }, shutdownCh := 0 },
       { manifest := { Id := "web", StatusPort := 8080, StatusHTTP := false }, shutdownCh := 1 }]
      [{ Manifest := { Id := "web", StatusPort := 8080, StatusHTTP := false } }] 2).1 "web" = 2 := by
  decide

/-- C2 amended: for a current supervised set holding at most one PodWatch
per manifest id (as the supervisor maintains), the set updatePods returns
holds exactly one PodWatch for each listed manifest id of nonzero status
port, no PodWatch whose id is unlisted, and no two PodWatches with the
same manifest id. -/
theorem updatePods_reconciles (current : List PodWatch) (reality : List ManifestResult)
    (fresh : Nat) (hdist : ∀ i, countId current i ≤ 1) :
    (∀ man ∈ reality, man.Manifest.StatusPort ≠ 0 →
      countId (updatePods current reality fresh).1 man.Manifest.Id = 1) ∧
    (∀ pod ∈ (updatePods current reality fresh).1,
      idInReality reality pod.manifest.Id = true) ∧
    (∀ i, countId (updatePods current reality fresh).1 i ≤ 1) := by
  have hres : (updatePods current reality fresh).1 =
      addMissing (current.filter fun pod => idInReality reality pod.manifest.Id)
        reality fresh := rfl
  refine ⟨?_, ?_, ?_⟩
  · intro man hman hport
    rw [hres, addMissing_countId]
    cases hin : idInPods (current.filter fun pod => idInReality reality pod.manifest.Id)
        man.Manifest.Id with
    | true =>
      have h1 : 0 < countId (current.filter fun pod => idInReality reality pod.manifest.Id)
          man.Manifest.Id := (idInPods_iff_countId_pos _ _).mp hin
      have h2 : countId (current.filter fun pod => idInReality reality pod.manifest.Id)
          man.Manifest.Id ≤ countId current man.Manifest.Id := countId_filter_le _ _ _
      have h3 := hdist man.Manifest.Id
      simp only [hin, if_true]
      omega
    | false =>
      have hany : (reality.any fun m =>
          m.Manifest.Id == man.Manifest.Id && m.Manifest.StatusPort != 0) = true :=
        List.any_eq_true.mpr ⟨man, hman, by simp [hport]⟩
      simp [hin, hany]
  · intro pod hmem
    rw [hres] at hmem
    rcases addMissing_mem _ _ _ _ hmem with hin | ⟨man, hm, he⟩
    · exact (List.mem_filter.mp hin).2
    · exact List.any_eq_true.mpr ⟨man, hm, by simp [he]⟩
  · intro i
    rw [hres, addMissing_countId]
    cases hin : idInPods (current.filter fun pod => idInReality reality pod.manifest.Id) i with
    | true =>
      have h2 := countId_filter_le current (fun pod => idInReality reality pod.manifest.Id) i
      have h3 := hdist i
      simp only [hin, if_true]
      omega
    | false =>
      rw [if_neg (by simp)]
      split <;> omega

theorem updatePods_reconciles_witness :
    countId (updatePods []
      [{ Manifest := { Id := "web", StatusPort := 8080, StatusHTTP := false } }] 0).1 "web" = 1 :=
  (updatePods_reconciles []
      [{ Manifest := { Id := "web", StatusPort := 8080, StatusHTTP := false } }] 0
      (fun i => by simp [countId])).1
    { Manifest := { Id := "web", StatusPort := 8080, StatusHTTP := false } }
    (List.mem_singleton_self _) (by decide)

/-- C3: the claim says a health record is published iff the status changed
or more than TTL/4 = 15s elapsed since the last check.  In the code the
threshold expression time.Duration(ttl/4)*time.Second multiplies two
nanosecond counts and overflows int64 to a negative duration, so
updateNeeded also returns true with an unchanged status only 1s after the
last check, where the claimed condition is false. -/
theorem updateNeeded_threshold_overflows :
    sc3.updateNeeded res3 TTL 1000000000 = true ∧
    int64wrap (TTL / 4 * Second) = -3446744073709551616 ∧
    ¬ (res3.Status ≠ sc3.lastStatus ∨ 1000000000 - sc3.lastCheck > TTL / 4) := by
  refine ⟨by decide, by decide, by decide⟩

/-- C4: the claim says a successful publish leaves the monitor's
suppression state for subsequent ticks with lastCheckTime the publish time
and lastStatus the published status.  checkHealth records them only in its
by-value copy of the StatusCheck: at the failing input the call publishes
at t = 5s and computes the updated copy, yet MonitorHealth passes its
original statusChecker (lastCheck 0, empty lastStatus) to every
subsequent call, so the recorded state never reaches the next tick. -/
theorem checkHealth_state_discarded :
    (checkHealth scInit (some respOk) none putOk 5000000000).1.lastCheck = 5000000000 ∧
    (checkHealth scInit (some respOk) none putOk 5000000000).1.lastStatus = Passing ∧
    (checkHealth scInit (some respOk) none putOk 5000000000).2.isSome = true ∧
    putOk.err = none ∧
    monitorCalls scInit [tickOk, tickOk] = [scInit, scInit] ∧
    scInit.lastCheck = 0 ∧ scInit.lastStatus = "" := by decide

/-- C5: a pod supervised at one tick whose manifest id is absent from the
reality listing of the next successful tick has the value true sent on its
shutdown channel by that tick's updatePods, and a MonitorHealth loop
receiving on its shutdown channel returns at once. -/
theorem updatePods_signals_removed (current : List PodWatch)
    (reality : List ManifestResult) (fresh : Nat) (pod : PodWatch)
    (hmem : pod ∈ current) (habs : idInReality reality pod.manifest.Id = false) :
    (pod.shutdownCh, true) ∈ (updatePods current reality fresh).2 ∧
    ∀ (sc : StatusCheck) (rest : List MonitorEvent),
      MonitorHealth sc (MonitorEvent.shutdown :: rest) = true := by
  constructor
  · have hf : pod ∈ current.filter fun p => !(idInReality reality p.manifest.Id) :=
      List.mem_filter.mpr ⟨hmem, by simp [habs]⟩
    simp only [updatePods]
    exact List.mem_map_of_mem _ hf
  · intro sc rest
    rfl

theorem updatePods_signals_removed_witness :
    ((7 : Nat), true) ∈ (updatePods
      [{ manifest := { Id := "db", StatusPort := 9, StatusHTTP := true }, shutdownCh := 7 }]
      [] 0).2 :=
  (updatePods_signals_removed
      [{ manifest := { Id := "db", StatusPort := 9, StatusHTTP := true }, shutdownCh := 7 }]
      [] 0
      { manifest := { Id := "db", StatusPort := 9, StatusHTTP := true }, shutdownCh := 7 }
      (List.mem_singleton_self _) (by decide)).1

/-- C6: resultFromCheck maps a transport error to Critical with the error
text as output, a nil response without error to Critical with empty
output, a readable response to Passing on a 2xx code and Critical
otherwise with the body as output, and a response whose body read fails to
the same status with empty output (the read error is returned alongside
the result). -/
theorem resultFromCheck_cases (resp : Option HttpResponse) (err : Option String) :
    (∀ e, err = some e → resultFromCheck resp err =
      ({ emptyResult with Status := Critical, Output := e }, none)) ∧
    (err = none → resp = none → resultFromCheck resp err =
      ({ emptyResult with Status := Critical }, none)) ∧
    (∀ r b, err = none → resp = some r → r.Body = Except.ok b →
      resultFromCheck resp err =
        ({ emptyResult with
            Output := b,
            Status := if 200 ≤ r.StatusCode ∧ r.StatusCode < 300 then Passing else Critical },
          none)) ∧
    (∀ r e, err = none → resp = some r → r.Body = Except.error e →
      resultFromCheck resp err =
        ({ emptyResult with
            Output := "",
            Status := if 200 ≤ r.StatusCode ∧ r.StatusCode < 300 then Passing else Critical },
          some e)) := by
  refine ⟨?_, ?_, ?_, ?_⟩
  · intro e he
    subst he
    rfl
  · intro he hr
    subst he
    subst hr
    rfl
  · intro r b he hr hb
    subst he
    subst hr
    simp [resultFromCheck, getBody, hb]
  · intro r e he hr hb
    subst he
    subst hr
    simp [resultFromCheck, getBody, hb]

theorem resultFromCheck_cases_witness :
    resultFromCheck none (some "connection refused") =
      ({ emptyResult with Status := Critical, Output := "connection refused" }, none) :=
  (resultFromCheck_cases none (some "connection refused")).1 "connection refused" rfl

/-- C7: GetStatus on a key absent from the fake store returns the typed
NoStatusError carrying the key string status/<type>/<id>/<namespace>
together with query metadata holding the store's current LastIndex, and on
a present key returns the stored status with the current LastIndex and no
error. -/
theorem GetStatus_spec (s : FakeStatusStore) (t id ns : String) :
    (lookupStatus s.Statuses { resourceType := t, resourceID := id, «namespace» := ns } = none →
      s.GetStatus t id ns = ("", { LastIndex := s.LastIndex },
        some (StoreError.noStatus ("status/" ++ t ++ "/" ++ id ++ "/" ++ ns)))) ∧
    (∀ v, lookupStatus s.Statuses { resourceType := t, resourceID := id, «namespace» := ns } = some v →
      s.GetStatus t id ns = (v, { LastIndex := s.LastIndex }, none)) := by
  constructor
  · intro h
    simp [FakeStatusStore.GetStatus, h, StatusIdentifier.string]
  · intro v h
    simp [FakeStatusStore.GetStatus, h]

theorem GetStatus_spec_witness :
    NewFake.GetStatus "rc" "web" "ns" =
      ("", { LastIndex := 1234 }, some (StoreError.noStatus "status/rc/web/ns")) :=
  (GetStatus_spec NewFake "rc" "web" "ns").1 rfl

/-- C8: the transaction-requiring operations of the fake store each return
an error and leave the store, its Statuses map and its LastIndex,
untouched. -/
theorem fake_txn_ops_no_effect (s : FakeStatusStore) (t id ns : String)
    (status : Status) (modifyIndex : Nat) :
    ((s.CASStatus t id ns status modifyIndex).1 = s ∧
      (s.CASStatus t id ns status modifyIndex).2.isSome = true) ∧
    ((s.SetTxn t id ns status).1 = s ∧ (s.SetTxn t id ns status).2.isSome = true) ∧
    ((s.DeleteStatusTxn t id ns).1 = s ∧ (s.DeleteStatusTxn t id ns).2.isSome = true) :=
  ⟨⟨rfl, rfl⟩, ⟨rfl, rfl⟩, ⟨rfl, rfl⟩⟩

/-- C9 counterexample: the claim says WatchStatus returns only once the
key's modifyIndex strictly exceeds waitIndex.  On the fresh fake store
(LastIndex 1234) a watch at waitIndex 1234 returns at once although no
index exceeds 1234: the loop exits as soon as waitIndex ≤ LastIndex. -/
theorem WatchStatus_returns_at_equal_index :
    (NewFake.WatchStatus "rc" "web" "ns" 1234).isSome = true ∧
    ¬ (1234 < NewFake.LastIndex) := by decide

/-- C9 amended: WatchStatus returns exactly when waitIndex ≤ the store's
current LastIndex, so also when the index merely equals waitIndex (the
spurious early return the design allows), and it then returns the
GetStatus result for the key, the stored value or the NotFound result. -/
theorem WatchStatus_amended (s : FakeStatusStore) (t id ns : String) (waitIndex : Nat) :
    (waitIndex ≤ s.LastIndex →
      s.WatchStatus t id ns waitIndex = some (s.GetStatus t id ns)) ∧
    (s.LastIndex < waitIndex → s.WatchStatus t id ns waitIndex = none) := by
  constructor
  · intro h
    simp [FakeStatusStore.WatchStatus, h]
  · intro h
    rw [FakeStatusStore.WatchStatus, if_neg (Nat.not_le.mpr h)]

theorem WatchStatus_amended_witness :
    NewFake.WatchStatus "rc" "web" "ns" 1000 = some (NewFake.GetStatus "rc" "web" "ns") :=
  (WatchStatus_amended NewFake "rc" "web" "ns" 1000).1 (by decide)

/-- C10: every health record checkHealth hands to the KV put carries
Service and Id both equal to the StatusCheck's ID and Node equal to the
StatusCheck's Node. -/
theorem checkHealth_write_fields (sc : StatusCheck) (resp : Option HttpResponse)
    (rerr : Option String) (put : PutOutcome) (nowNs : Int) (w : WatchResult)
    (h : (checkHealth sc resp rerr put nowNs).2 = some w) :
    w.Service = sc.ID ∧ w.Id = sc.ID ∧ w.Node = sc.Node := by
  simp only [checkHealth] at h
  split at h
  · simp at h
  · split at h
    · simp only [Option.some.injEq] at h
      subst h
      simp [resToKPRes]
    · simp at h

theorem checkHealth_write_fields_witness :
    wWeb.Service = "web" ∧ wWeb.Id = "web" ∧ wWeb.Node = "node1" :=
  checkHealth_write_fields scInit none (some "connection refused")
    { timeOfPut := 1, err := none } 0 wWeb (by decide)
